import Mathlib

/-!
# 1-2Control-auto: provisioning and reset state machine

A shallow embedding of `src/main.cpp` (push-button interrupt routine, `setup`,
`loop`, `wifi_connection`, `setFactoryDefaults`) and of `src/hal.cpp`
(`setControlState`, `setStatusLed`, `getControlState`), followed by the
theorems that settle the properties stated for them.

Conventions of the embedding:
* `unsigned long` and `uint32_t` are 32 bits wide on the target; they are
  natural numbers reduced modulo `2 ^ 32` wherever the source does arithmetic.
* `char` arrays are lists of byte values; the C string held by an array is the
  prefix before the first zero byte (`cstr`).
* calls into collaborators that are not part of the sources (EEPROM, WiFi,
  web server, mDNS, serial console, ESP) are recorded, in program order, in a
  list of `Action`s; the values those collaborators return are inputs.
-/

namespace Control

/-! ## Machine integers -/

/-- Number of values of a 32-bit unsigned integer. -/
def U32 : Nat := 4294967296

/-- Unsigned 32-bit subtraction `a - b`, wrapping modulo `2 ^ 32`. -/
def sub32 (a b : Nat) : Nat := (a % U32 + (U32 - b % U32)) % U32

/-- Unsigned 32-bit addition `a + b`, wrapping modulo `2 ^ 32`. -/
def add32 (a b : Nat) : Nat := (a + b) % U32

/-! ## Push-button interrupt routine (`main.cpp`, lines 24-28 and 119-154) -/

/-- `#define MAX_BOUNCING_TIME 100` -/
def MAX_BOUNCING_TIME : Nat := 100

/-- `#define MIN_FACTORY_TIME 5000` -/
def MIN_FACTORY_TIME : Nat := 5000

/-- Arduino pin level `LOW`. -/
def LOW : Nat := 0

/-- Arduino pin level `HIGH`. -/
def HIGH : Nat := 1

/-- The three `static` variables of `reset_button_isr` together with the two
global flags it assigns. -/
structure IsrState where
  wait_for_press : Bool
  push_time : Nat
  prev_int_time : Nat
  restart : Bool
  invalidate_eeprom : Bool
  deriving DecidableEq, Repr

/-- Values of the statics and of the flags before the first interrupt. -/
def IsrState.init : IsrState :=
  { wait_for_press := true, push_time := 0, prev_int_time := 0,
    restart := false, invalidate_eeprom := false }

/-- Which assignment block of `reset_button_isr` an invocation executed. -/
inductive IsrEffect where
  /-- no variable was assigned (early `return`, or inside the bouncing time) -/
  | ignored
  /-- lines 136-138: the press was accepted -/
  | press_accepted
  /-- line 150, then 151: `restart = true` -/
  | restart_set
  /-- line 148, then 151: `invalidate_eeprom = true` -/
  | invalidate_set
  deriving DecidableEq, Repr

/-- One invocation of `reset_button_isr`. `millis` is the value returned by
`millis()` (kept as an `unsigned long`) and `pin` the value returned by
`digitalRead(PUSH_BUTTON_PIN)`, which the source reads only while waiting for
a press. -/
def reset_button_isr (s : IsrState) (millis pin : Nat) : IsrState × IsrEffect :=
  let curr_time := millis % U32
  if s.wait_for_press then
    if pin ≠ LOW then
      (s, IsrEffect.ignored)
    else if sub32 curr_time s.prev_int_time > MAX_BOUNCING_TIME then
      ({ s with push_time := curr_time, prev_int_time := curr_time, wait_for_press := false },
        IsrEffect.press_accepted)
    else
      (s, IsrEffect.ignored)
  else
    if sub32 curr_time s.prev_int_time > MAX_BOUNCING_TIME then
      if sub32 curr_time s.push_time > MIN_FACTORY_TIME then
        ({ s with invalidate_eeprom := true, wait_for_press := true }, IsrEffect.invalidate_set)
      else
        ({ s with restart := true, wait_for_press := true }, IsrEffect.restart_set)
    else
      (s, IsrEffect.ignored)

/-- An interrupt: the `millis()` reading and the pin level at that moment. -/
structure Edge where
  millis : Nat
  pin : Nat
  deriving DecidableEq, Repr

/-- State after a sequence of interrupts. -/
def isrFinal : IsrState → List Edge → IsrState
  | s, [] => s
  | s, e :: es => isrFinal (reset_button_isr s e.millis e.pin).1 es

/-- Effect of every interrupt of a sequence, in order. -/
def isrEffects : IsrState → List Edge → List IsrEffect
  | _, [] => []
  | s, e :: es =>
    (reset_button_isr s e.millis e.pin).2 :: isrEffects (reset_button_isr s e.millis e.pin).1 es

/-- An invocation is an accepted transition when it changes the wait phase. -/
def IsrEffect.accepted : IsrEffect → Bool
  | IsrEffect.ignored => false
  | _ => true

/-- An invocation sets a flag when it assigns `restart` or `invalidate_eeprom`. -/
def IsrEffect.setsFlag : IsrEffect → Bool
  | IsrEffect.restart_set => true
  | IsrEffect.invalidate_set => true
  | _ => false

/-- The `millis()` readings of the accepted transitions of a sequence, in order. -/
def acceptedTimes : IsrState → List Edge → List Nat
  | _, [] => []
  | s, e :: es =>
    if (reset_button_isr s e.millis e.pin).2.accepted then
      e.millis :: acceptedTimes (reset_button_isr s e.millis e.pin).1 es
    else
      acceptedTimes (reset_button_isr s e.millis e.pin).1 es

/-- Number of invocations of a sequence that set a flag. -/
def flagSets (s : IsrState) (es : List Edge) : Nat :=
  ((isrEffects s es).filter IsrEffect.setsFlag).length

/-- Whether the invocation for edge `e`, entered with the statics of `s`,
assigns a flag: entered with both flags clear, it returns with `restart` or
`invalidate_eeprom` set. -/
def setsFlagFrom (s : IsrState) (e : Edge) : Bool :=
  (reset_button_isr { s with restart := false, invalidate_eeprom := false }
      e.millis e.pin).1.restart ||
    (reset_button_isr { s with restart := false, invalidate_eeprom := false }
      e.millis e.pin).1.invalidate_eeprom

/-- Number of invocations of a sequence that assign a flag, read off the flags
in the state. -/
def flagSetCount : IsrState → List Edge → Nat
  | _, [] => 0
  | s, e :: es =>
    (if setsFlagFrom s e then 1 else 0) + flagSetCount (reset_button_isr s e.millis e.pin).1 es

/-- A bounce transition: how many milliseconds after an edge it occurs, and the
pin level read at that moment. -/
structure Bounce where
  offset : Nat
  pin : Nat
  deriving DecidableEq, Repr

/-- The interrupts of the bounces that follow an edge at `millis()` reading `t`. -/
def bounces (t : Nat) (bs : List Bounce) : List Edge :=
  bs.map (fun b => { millis := t + b.offset, pin := b.pin })

/-! ## Configuration record (`main.cpp`, lines 18-19 and 38-51) -/

/-- Modelled from the spec: the configuration record `eeprom_params_t`, whose
declaration (header `eeprom.h`) is not among the sources. The fields are the
ones `main.cpp` reads and writes, with the types the spec gives them. A `char`
array is the list of its bytes, a `float` is its IEEE-754 binary32 bit pattern,
and `validation_code` is a `uint32_t`. -/
structure eeprom_params_t where
  validation_code : Nat
  ssid_sta : List Nat
  password_sta : List Nat
  name : List Nat
  temp_setpoint : Nat
  hum_setpoint : Nat
  control_mode : List Nat
  deriving DecidableEq, Repr

/-- The validation code `0xAABBCCDD` that `setFactoryDefaults` stores. -/
def FACTORY_VALIDATION_CODE : Nat := 0xAABBCCDD

/-- `const char DEFAULT_NAME[] = "controlseu";` with its terminating zero. -/
def DEFAULT_NAME : List Nat := [99, 111, 110, 116, 114, 111, 108, 115, 101, 117, 0]

/-- Bit pattern of the `float` value `20.0`. -/
def FLOAT_20_0 : Nat := 0x41A00000

/-- Bit pattern of the `float` value `60.0`. -/
def FLOAT_60_0 : Nat := 0x42700000

/-- The C string stored in a `char` array: the bytes before the first zero. -/
def cstr (buf : List Nat) : List Nat := buf.takeWhile (fun c => c ≠ 0)

/-- Library function `strcpy(dst, src)`: the bytes of the C string `src` and a
terminating zero overwrite the beginning of `dst`; the rest of `dst` is kept.
The destination is taken to be large enough, as `strcpy` requires. -/
def strcpy (dst src : List Nat) : List Nat :=
  cstr src ++ 0 :: dst.drop ((cstr src).length + 1)

/-- Function `setFactoryDefaults` of `main.cpp`. `CONTROL_MODE_OFF` is the
string literal of that name from header `control.h`, which is not among the
sources; it is a parameter. -/
def setFactoryDefaults (CONTROL_MODE_OFF : List Nat) (params : eeprom_params_t) :
    eeprom_params_t :=
  { validation_code := FACTORY_VALIDATION_CODE
    ssid_sta := params.ssid_sta.set 0 0
    password_sta := params.password_sta.set 0 0
    name := strcpy params.name DEFAULT_NAME
    temp_setpoint := FLOAT_20_0
    hum_setpoint := FLOAT_60_0
    control_mode := strcpy params.control_mode CONTROL_MODE_OFF }

/-! ## Globals and collaborators of `main.cpp` -/

/-- Modelled from the spec: the values of `run_mode`. The macros `RUN_AS_AP`
and `RUN_AS_STA` are defined in a header that is not among the sources; the
spec gives the run mode the two values AccessPoint and Station. -/
inductive RunMode where
  | RUN_AS_AP
  | RUN_AS_STA
  deriving DecidableEq, Repr

/-- Request handlers registered with the web server (`webhandle.h`). -/
inductive Handler where
  | handleRoot_ap
  | handleRoot_sta
  | handleNotFound
  deriving DecidableEq, Repr

/-- Calls into collaborators, as `setup` and `loop` issue them. -/
inductive Action where
  /-- `Serial.begin(baud)` -/
  | serial_begin (baud : Nat)
  /-- `Serial.printf` / `Serial.println` with this format string -/
  | serial (text : String)
  /-- `initTempHumiditySensor()` -/
  | initTempHumiditySensor
  /-- `EEPROM.begin(sizeof(eeprom_params_t))` -/
  | eeprom_begin
  /-- `EEPROM.readBytes(0, &eeprom_params, sizeof(eeprom_params_t))` -/
  | eeprom_readBytes
  /-- `EEPROM.writeBytes(0, &eeprom_params, sizeof(eeprom_params))`, with the
  record that is written -/
  | eeprom_writeBytes (record : eeprom_params_t)
  /-- `EEPROM.commit()` -/
  | eeprom_commit
  /-- `delay(ms)` -/
  | delay (ms : Nat)
  /-- `ESP.restart()` -/
  | esp_restart
  /-- `setStatusLed(state)` -/
  | setStatusLed (state : Int)
  /-- `WiFi.softAP(ssid_ap, PASSWORD)` -/
  | wifi_softAP
  /-- `WiFi.mode(WIFI_STA)` -/
  | wifi_mode_sta
  /-- `WiFi.begin(ssid, password)` -/
  | wifi_begin (ssid password : List Nat)
  /-- `MDNS.begin(name)` -/
  | mdns_begin (name : List Nat)
  /-- `server.on("/index.html", handler)` -/
  | server_on (handler : Handler)
  /-- `server.onNotFound(handler)` -/
  | server_onNotFound (handler : Handler)
  /-- `server.begin()` -/
  | server_begin
  /-- `server.handleClient()` -/
  | server_handleClient
  /-- `control_temp_hum()` -/
  | control_temp_hum
  /-- `pinMode(PUSH_BUTTON_PIN, INPUT)` -/
  | pinMode_push_button_input
  /-- `attachInterrupt(PUSH_BUTTON_PIN, reset_button_isr, CHANGE)` -/
  | attachInterrupt
  /-- `cache_web_content(run_mode)` -/
  | cache_web_content (mode : RunMode)
  deriving DecidableEq, Repr

/-- Console output: the diagnostic stream. -/
def Action.isDiagnostic : Action → Bool
  | Action.serial_begin _ => true
  | Action.serial _ => true
  | _ => false

/-- Actions of the per-mode part of `loop` (lines 227-265): status indicator,
web server, WiFi association, name resolution, control algorithm. -/
def Action.isModal : Action → Bool
  | Action.setStatusLed _ => true
  | Action.wifi_softAP => true
  | Action.wifi_mode_sta => true
  | Action.wifi_begin _ _ => true
  | Action.mdns_begin _ => true
  | Action.server_on _ => true
  | Action.server_onNotFound _ => true
  | Action.server_begin => true
  | Action.server_handleClient => true
  | Action.control_temp_hum => true
  | _ => false

/-- Start of the web server: `server.begin()`. -/
def Action.isServerBegin : Action → Bool
  | Action.server_begin => true
  | _ => false

/-- Registration of a route on the web server. -/
def Action.isRouteRegistration : Action → Bool
  | Action.server_on _ => true
  | Action.server_onNotFound _ => true
  | _ => false

/-- The global variables of `main.cpp` that `setup` and `loop` use, with the
`static` of `wifi_connection`. -/
structure Globals where
  run_mode : RunMode
  restart : Bool
  invalidate_eeprom : Bool
  factory_default_params : eeprom_params_t
  eeprom_params : eeprom_params_t
  /-- `static bool first_time` of `wifi_connection` -/
  first_time : Bool
  deriving DecidableEq, Repr

/-- Control states `OFF` and `ON` of `hal.h`. -/
def OFF : Int := 0

/-- Control state `ON` of `hal.h`. -/
def ON : Int := 1

/-- Function `configure_as_ap_webserver` of `main.cpp`; `softAP_ok` is the
value returned by `WiFi.softAP` and `mdns_ok` the value returned by
`MDNS.begin`. -/
def configure_as_ap_webserver (g : Globals) (softAP_ok mdns_ok : Bool) : List Action :=
  [Action.serial "Setting AP with SSID: %s", Action.wifi_softAP,
   Action.serial (if softAP_ok then " -> OK;" else " ->Failed"),
   Action.serial "  IP address: %s\n",
   Action.mdns_begin g.eeprom_params.name]
  ++ (if mdns_ok then [Action.serial "mDNS service started with name %s\n"] else [])
  ++ [Action.server_on Handler.handleRoot_ap, Action.server_onNotFound Handler.handleNotFound,
      Action.server_begin, Action.serial "Web server started\n"]

/-- Values returned by the collaborators during `setup`. -/
structure SetupInput where
  /-- value returned by `EEPROM.begin` -/
  eeprom_ok : Bool
  /-- content of `eeprom_params` after `EEPROM.readBytes` -/
  loaded : eeprom_params_t
  /-- value returned by `WiFi.softAP` -/
  softAP_ok : Bool
  /-- value returned by `MDNS.begin` -/
  mdns_ok : Bool

/-- Function `setup` of `main.cpp`. -/
def setup (CONTROL_MODE_OFF : List Nat) (g : Globals) (inp : SetupInput) :
    Globals × List Action :=
  let g1 := { g with factory_default_params :=
                setFactoryDefaults CONTROL_MODE_OFF g.factory_default_params }
  let t1 := [Action.serial_begin 115200, Action.initTempHumiditySensor, Action.eeprom_begin]
    ++ (if inp.eeprom_ok then [] else [Action.serial "Failed initializing EEPROM\n"])
    ++ [Action.eeprom_readBytes]
  let g2 := { g1 with eeprom_params := inp.loaded }
  let tail := fun (m : RunMode) =>
    [Action.pinMode_push_button_input, Action.attachInterrupt, Action.cache_web_content m]
  if g2.eeprom_params.validation_code ≠ g2.factory_default_params.validation_code then
    let g3 := { g2 with eeprom_params := setFactoryDefaults CONTROL_MODE_OFF g2.eeprom_params }
    let g4 := { g3 with run_mode := RunMode.RUN_AS_AP }
    (g4, t1 ++ configure_as_ap_webserver g4 inp.softAP_ok inp.mdns_ok ++ tail g4.run_mode)
  else
    let g3 := { g2 with run_mode := RunMode.RUN_AS_STA }
    (g3, t1 ++ [Action.serial "Stored SSID: %s;\tpassword: %s;\tName: %s\n"] ++ tail g3.run_mode)

/-- Values returned by the collaborators during one iteration of `loop`. A
status field is `true` when `WiFi.status()` returns `WL_CONNECTED` at the
source line the field is named after, should the iteration reach that line. -/
structure LoopInput where
  /-- `millis()` at line 231 -/
  millis : Nat
  /-- `WiFi.status()` at line 241, in `loop` -/
  status_241 : Bool
  /-- `WiFi.status()` at line 97, in `wifi_connection` -/
  status_97 : Bool
  /-- `WiFi.status()` at line 106, in `wifi_connection` -/
  status_106 : Bool
  /-- `WiFi.status()` at line 260, in `loop` -/
  status_260 : Bool
  /-- value returned by `MDNS.begin` at line 249 -/
  mdns_ok : Bool
  deriving DecidableEq, Repr

/-- Function `wifi_connection` of `main.cpp`: the returned value, the globals
afterwards, and the actions. -/
def wifi_connection (g : Globals) (ssid password : List Nat) (inp : LoopInput) :
    Bool × Globals × List Action :=
  let t1 := if g.first_time then
      [Action.wifi_mode_sta, Action.wifi_begin ssid password, Action.serial "\nConnecting to %s "]
    else []
  let g1 := if g.first_time then { g with first_time := false } else g
  let t2 := if inp.status_97 ≠ true then
      [Action.setStatusLed ON, Action.delay 200, Action.setStatusLed OFF, Action.delay 200,
       Action.serial "."]
    else []
  (inp.status_106, g1, t1 ++ t2)

/-- Function `loop` of `main.cpp`: the globals and the actions of one
iteration. `ESP.restart()` does not return, so an iteration ends with it. The
web handlers behind `server.handleClient()` and the body of
`control_temp_hum()` are not among the sources: the iteration records the call
and leaves the globals as they are. -/
def loop (g : Globals) (inp : LoopInput) : Globals × List Action :=
  if g.restart then
    (g, [Action.serial "\nRestarting in 2 seconds...", Action.delay 2000, Action.esp_restart])
  else if g.invalidate_eeprom then
    let g1 := { g with eeprom_params :=
      { g.eeprom_params with
        validation_code := add32 g.factory_default_params.validation_code 1 } }
    (g1, [Action.eeprom_writeBytes g1.eeprom_params, Action.eeprom_commit,
          Action.serial "\nInvalidating EEPROM and restarting as AP in 2 seconds...",
          Action.delay 2000, Action.esp_restart])
  else if g.run_mode = RunMode.RUN_AS_AP then
    (g, [if (inp.millis % U32 / 500) % 2 ≠ 0 then Action.setStatusLed ON
         else Action.setStatusLed OFF,
         Action.server_handleClient])
  else
    let r :=
      if inp.status_241 ≠ true then
        let c := wifi_connection g g.eeprom_params.ssid_sta g.eeprom_params.password_sta inp
        if c.1 then
          (c.2.1, c.2.2 ++
            [Action.setStatusLed ON, Action.serial "\nConnected with IP address: %s\n",
             Action.mdns_begin c.2.1.eeprom_params.name]
            ++ (if inp.mdns_ok then [Action.serial "mDNS service started with name %s\n"] else [])
            ++ [Action.server_on Handler.handleRoot_sta,
                Action.server_onNotFound Handler.handleNotFound,
                Action.server_begin, Action.serial "Web server started\n"])
        else (c.2.1, c.2.2)
      else (g, [])
    (r.1, r.2 ++ (if inp.status_260 then [Action.server_handleClient] else [])
      ++ [Action.control_temp_hum])

/-- Traces of consecutive iterations of `loop`, one per input; the iterations
stop after one that ends with `ESP.restart()`. -/
def loopRun : Globals → List LoopInput → List (List Action)
  | _, [] => []
  | g, i :: is =>
    if Action.esp_restart ∈ (loop g i).2 then [(loop g i).2]
    else (loop g i).2 :: loopRun (loop g i).1 is

/-- Records passed to `EEPROM.writeBytes` in a trace. -/
def writtenRecords : List Action → List eeprom_params_t
  | [] => []
  | Action.eeprom_writeBytes r :: as => r :: writtenRecords as
  | _ :: as => writtenRecords as

/-- Number of `server.begin()` calls in the traces of a run. -/
def serverStarts (traces : List (List Action)) : Nat :=
  (traces.map (fun t => (t.filter Action.isServerBegin).length)).sum

/-- Number of `server.begin()` calls of each iteration of a run, in order. -/
def startsPerIteration (traces : List (List Action)) : List Nat :=
  traces.map (fun t => (t.filter Action.isServerBegin).length)

/-- Number of route registrations (`server.on`, `server.onNotFound`) in the
traces of a run. -/
def routeRegistrations (traces : List (List Action)) : Nat :=
  (traces.map (fun t => (t.filter Action.isRouteRegistration).length)).sum

/-! ## Hardware abstraction layer (`hal.cpp`, lines 7 and 47-97) -/

/-- `#define CONTROL_PIN 25` -/
def CONTROL_PIN : Nat := 25

/-- Arduino pin modes, as passed to `pinMode`. -/
inductive PinDirection where
  | INPUT
  | OUTPUT
  deriving DecidableEq, Repr

/-- The file-scope `controlState`, the `firstTime` statics of the two setters,
and the pins: the mode last given to a pin by `pinMode` and the level last
given to it by `digitalWrite`. -/
structure HalState where
  controlState : Int
  setControlState_firstTime : Bool
  setStatusLed_firstTime : Bool
  pinModes : Nat → Option PinDirection
  pinLevels : Nat → Option Nat

/-- State of the layer before any call: `controlState = OFF`, both `firstTime`
statics `true`, no pin configured or written. -/
def HalState.init : HalState :=
  { controlState := OFF, setControlState_firstTime := true, setStatusLed_firstTime := true,
    pinModes := fun _ => none, pinLevels := fun _ => none }

/-- Arduino `pinMode(pin, mode)`. -/
def pinMode (h : HalState) (pin : Nat) (mode : PinDirection) : HalState :=
  { h with pinModes := fun p => if p = pin then some mode else h.pinModes p }

/-- Arduino `digitalWrite(pin, level)`. -/
def digitalWrite (h : HalState) (pin level : Nat) : HalState :=
  { h with pinLevels := fun p => if p = pin then some level else h.pinLevels p }

/-- Function `setControlState` of `hal.cpp`. -/
def setControlState (h : HalState) (state : Int) : HalState :=
  let h1 := if h.setControlState_firstTime then
      { pinMode h CONTROL_PIN PinDirection.OUTPUT with setControlState_firstTime := false }
    else h
  let h2 := { h1 with controlState := state }
  if h2.controlState = ON then digitalWrite h2 CONTROL_PIN HIGH
  else digitalWrite h2 CONTROL_PIN LOW

/-- Function `setStatusLed` of `hal.cpp`. -/
def setStatusLed (h : HalState) (state : Int) : HalState :=
  let h1 := if h.setStatusLed_firstTime then
      { pinMode h CONTROL_PIN PinDirection.OUTPUT with setStatusLed_firstTime := false }
    else h
  let h2 := { h1 with controlState := state }
  if h2.controlState = ON then digitalWrite h2 CONTROL_PIN HIGH
  else digitalWrite h2 CONTROL_PIN LOW

/-- Function `getControlState` of `hal.cpp`. -/
def getControlState (h : HalState) : Int := h.controlState

/-- A call to one of the two setters. -/
inductive HalCall where
  | setControlState (state : Int)
  | setStatusLed (state : Int)
  deriving DecidableEq, Repr

/-- The argument of a call. -/
def HalCall.arg : HalCall → Int
  | HalCall.setControlState a => a
  | HalCall.setStatusLed a => a

/-- State of the layer after a sequence of calls. -/
def halRun : HalState → List HalCall → HalState
  | h, [] => h
  | h, HalCall.setControlState a :: cs => halRun (setControlState h a) cs
  | h, HalCall.setStatusLed a :: cs => halRun (setStatusLed h a) cs

/-- The control state as the specification words it: the argument of the most
recent call to either setter, `OFF` when there was none. -/
def specControlState (calls : List HalCall) : Int :=
  match calls.getLast? with
  | some c => c.arg
  | none => OFF

/-- The control pin as the specification words it: `HIGH` exactly when the
argument of the most recent call is `ON`; nothing written when there was no
call. -/
def specControlPin (calls : List HalCall) : Option Nat :=
  match calls.getLast? with
  | some c => some (if c.arg = ON then HIGH else LOW)
  | none => none

/-! ## Views and sample values used to state the theorems -/

/-- The values a configuration record holds: the validation code, the C
strings of its `char` arrays and the two setpoints. -/
structure RecordValues where
  validation_code : Nat
  ssid_sta : List Nat
  password_sta : List Nat
  name : List Nat
  temp_setpoint : Nat
  hum_setpoint : Nat
  control_mode : List Nat
  deriving DecidableEq, Repr

/-- The values held by a record. -/
def eeprom_params_t.values (p : eeprom_params_t) : RecordValues :=
  { validation_code := p.validation_code
    ssid_sta := cstr p.ssid_sta
    password_sta := cstr p.password_sta
    name := cstr p.name
    temp_setpoint := p.temp_setpoint
    hum_setpoint := p.hum_setpoint
    control_mode := cstr p.control_mode }

/-- The factory defaults: validation code `0xAABBCCDD`, empty station SSID and
password, device name `controlseu`, setpoints `20.0` and `60.0`, control mode
`CONTROL_MODE_OFF`. -/
def factoryValues (CONTROL_MODE_OFF : List Nat) : RecordValues :=
  { validation_code := 0xAABBCCDD
    ssid_sta := []
    password_sta := []
    name := [99, 111, 110, 116, 114, 111, 108, 115, 101, 117]
    temp_setpoint := FLOAT_20_0
    hum_setpoint := FLOAT_60_0
    control_mode := cstr CONTROL_MODE_OFF }

/-- A sample value for the literal `CONTROL_MODE_OFF`: the bytes of `OFF`. -/
def sampleModeOff : List Nat := [79, 70, 70, 0]

/-- A sample valid record: station SSID `home-net`, password `secret`, device
name `kitchen`, control mode `AUTO`, setpoints `20.0` and `60.0`. -/
def sampleRecord : eeprom_params_t :=
  { validation_code := 0xAABBCCDD
    ssid_sta := [104, 111, 109, 101, 45, 110, 101, 116, 0, 0, 0, 0]
    password_sta := [115, 101, 99, 114, 101, 116, 0, 0, 0, 0, 0, 0]
    name := [107, 105, 116, 99, 104, 101, 110, 0, 0, 0, 0, 0]
    temp_setpoint := FLOAT_20_0
    hum_setpoint := FLOAT_60_0
    control_mode := [65, 85, 84, 79, 0, 0, 0, 0, 0, 0, 0, 0] }

/-- A sample record of a device whose storage was never written: all bytes
`0xFF`. -/
def blankRecord : eeprom_params_t :=
  { validation_code := 0xFFFFFFFF
    ssid_sta := List.replicate 12 255
    password_sta := List.replicate 12 255
    name := List.replicate 12 255
    temp_setpoint := 0xFFFFFFFF
    hum_setpoint := 0xFFFFFFFF
    control_mode := List.replicate 12 255 }

/-- The globals at power-on, before `setup`: `run_mode = RUN_AS_AP`, both flags
`false`, zero-initialised records (sample array sizes), `first_time = true`. -/
def powerOn : Globals :=
  { run_mode := RunMode.RUN_AS_AP
    restart := false
    invalidate_eeprom := false
    factory_default_params :=
      { validation_code := 0, ssid_sta := List.replicate 12 0,
        password_sta := List.replicate 12 0, name := List.replicate 12 0,
        temp_setpoint := 0, hum_setpoint := 0, control_mode := List.replicate 12 0 }
    eeprom_params :=
      { validation_code := 0, ssid_sta := List.replicate 12 0,
        password_sta := List.replicate 12 0, name := List.replicate 12 0,
        temp_setpoint := 0, hum_setpoint := 0, control_mode := List.replicate 12 0 }
    first_time := true }

/-- The globals after `setup` has loaded `sampleRecord`: station mode. -/
def sampleStation : Globals :=
  (setup sampleModeOff powerOn
    { eeprom_ok := true, loaded := sampleRecord, softAP_ok := true, mdns_ok := true }).1

/-- Readings of an iteration in which the association is seen established
inside `wifi_connection`. -/
def connectingInput : LoopInput :=
  { millis := 0, status_241 := false, status_97 := false, status_106 := true,
    status_260 := true, mdns_ok := true }

/-- Readings of a later iteration that finds the association lost at line 241
and established again inside `wifi_connection`. -/
def reconnectingInput : LoopInput :=
  { millis := 0, status_241 := false, status_97 := true, status_106 := true,
    status_260 := true, mdns_ok := true }

/-- Readings of an iteration during which no association exists yet. -/
def waitingInput : LoopInput :=
  { millis := 0, status_241 := false, status_97 := false, status_106 := false,
    status_260 := false, mdns_ok := true }

/-- Readings of an iteration in which the association is completed only after
`wifi_connection` has returned: seen at line 260 for the first time. -/
def lateInput : LoopInput :=
  { millis := 0, status_241 := false, status_97 := false, status_106 := false,
    status_260 := true, mdns_ok := true }

/-- Readings of an iteration during which the association stays established. -/
def connectedInput : LoopInput :=
  { millis := 0, status_241 := true, status_97 := true, status_106 := true,
    status_260 := true, mdns_ok := true }

/-- The iterations of a run in which the endpoint is due: the reading at line
241 is not `WL_CONNECTED` and the one at line 106 is. -/
def LoopInput.connects (i : LoopInput) : Bool := !i.status_241 && i.status_106

/-! ## Theorems: push-button interrupt routine -/

theorem sub32_lt (a b : Nat) : sub32 a b < U32 := by
  unfold sub32 U32
  omega

theorem sub32_offset (t d e : Nat) (hde : d ≤ e) (he : e - d < U32) :
    sub32 ((t + e) % U32) ((t + d) % U32) = e - d := by
  unfold sub32 U32 at *
  omega

theorem isrEffects_append (s : IsrState) (l1 l2 : List Edge) :
    isrEffects s (l1 ++ l2) = isrEffects s l1 ++ isrEffects (isrFinal s l1) l2 := by
  induction l1 generalizing s with
  | nil => rfl
  | cons e es ih => simp [isrEffects, isrFinal, ih]

/-- What `reset_button_isr` does with an accepted release: a held duration of
at most `MIN_FACTORY_TIME` sets `restart` only, a longer one sets
`invalidate_eeprom` only. -/
theorem isr_release_classification (s : IsrState) (t pin : Nat)
    (hphase : s.wait_for_press = false)
    (hacc : sub32 (t % U32) s.prev_int_time > MAX_BOUNCING_TIME) :
    (sub32 (t % U32) s.push_time ≤ MIN_FACTORY_TIME →
      reset_button_isr s t pin =
        ({ s with restart := true, wait_for_press := true }, IsrEffect.restart_set)) ∧
    (sub32 (t % U32) s.push_time > MIN_FACTORY_TIME →
      reset_button_isr s t pin =
        ({ s with invalidate_eeprom := true, wait_for_press := true },
          IsrEffect.invalidate_set)) := by
  constructor
  · intro h
    have h' : ¬ sub32 (t % U32) s.push_time > MIN_FACTORY_TIME := by omega
    simp [reset_button_isr, hphase, hacc, h']
  · intro h
    simp [reset_button_isr, hphase, hacc, h]

/-- The wait phase changes exactly in the invocations that are accepted. -/
theorem isr_accepted_iff_phase_changes (s : IsrState) (t pin : Nat) :
    (reset_button_isr s t pin).2.accepted = true ↔
      (reset_button_isr s t pin).1.wait_for_press ≠ s.wait_for_press := by
  simp only [reset_button_isr]
  cases hw : s.wait_for_press <;> split_ifs <;> simp_all [IsrEffect.accepted]

theorem isrEffects_cons (s : IsrState) (e : Edge) (es : List Edge) :
    isrEffects s (e :: es) =
      (reset_button_isr s e.millis e.pin).2 ::
        isrEffects (reset_button_isr s e.millis e.pin).1 es := rfl

theorem isr_bounces_during_hold (t0 : Nat) (bs : List Bounce) (s : IsrState)
    (hphase : s.wait_for_press = false) (hprev : s.prev_int_time = t0 % U32)
    (hb : ∀ b ∈ bs, b.offset ≤ MAX_BOUNCING_TIME) :
    isrFinal s (bounces t0 bs) = s ∧
      (isrEffects s (bounces t0 bs)).filter IsrEffect.setsFlag = [] := by
  induction bs with
  | nil => simp [bounces, isrFinal, isrEffects]
  | cons b bs ih =>
    have hb0 : b.offset ≤ MAX_BOUNCING_TIME := hb b (List.mem_cons_self _ _)
    have hd : sub32 ((t0 + b.offset) % U32) s.prev_int_time = b.offset := by
      rw [hprev]
      have := sub32_offset t0 0 b.offset (Nat.zero_le _)
        (by unfold MAX_BOUNCING_TIME U32 at *; omega)
      simpa using this
    have hstep : reset_button_isr s (t0 + b.offset) b.pin = (s, IsrEffect.ignored) := by
      have : ¬ b.offset > MAX_BOUNCING_TIME := by omega
      simp [reset_button_isr, hphase, hd, this]
    have ih' := ih (fun b' hb' => hb b' (List.mem_cons_of_mem _ hb'))
    simp only [bounces, List.map_cons, isrFinal, isrEffects, hstep] at ih' ⊢
    simpa [IsrEffect.setsFlag] using ih'

theorem isr_bounces_after_release (t1 : Nat) (bs : List Bounce) (s : IsrState)
    (hinv : s.wait_for_press = true ∨
      ∃ d, s.prev_int_time = (t1 + d) % U32 ∧ ∀ b ∈ bs, d ≤ b.offset)
    (hb : ∀ b ∈ bs, b.offset ≤ MAX_BOUNCING_TIME)
    (hord : bs.Pairwise (fun a b => a.offset ≤ b.offset)) :
    (isrEffects s (bounces t1 bs)).filter IsrEffect.setsFlag = [] := by
  induction bs generalizing s with
  | nil => simp [bounces, isrEffects]
  | cons b bs ih =>
    have hb0 : b.offset ≤ MAX_BOUNCING_TIME := hb b (List.mem_cons_self _ _)
    have hbs : ∀ b' ∈ bs, b'.offset ≤ MAX_BOUNCING_TIME :=
      fun b' hb' => hb b' (List.mem_cons_of_mem _ hb')
    have hord' := (List.pairwise_cons.mp hord).2
    have hle : ∀ b' ∈ bs, b.offset ≤ b'.offset := (List.pairwise_cons.mp hord).1
    simp only [bounces, List.map_cons, isrEffects]
    cases hw : s.wait_for_press with
    | true =>
      by_cases hpin : b.pin ≠ LOW
      · have hstep : reset_button_isr s (t1 + b.offset) b.pin = (s, IsrEffect.ignored) := by
          simp [reset_button_isr, hw, hpin]
        rw [hstep]
        have := ih s (Or.inl hw) hbs hord'
        simpa [IsrEffect.setsFlag, bounces] using this
      · by_cases hacc : sub32 ((t1 + b.offset) % U32) s.prev_int_time > MAX_BOUNCING_TIME
        · have hstep : reset_button_isr s (t1 + b.offset) b.pin =
              ({ s with push_time := (t1 + b.offset) % U32,
                        prev_int_time := (t1 + b.offset) % U32,
                        wait_for_press := false }, IsrEffect.press_accepted) := by
            simp [reset_button_isr, hw, hpin, hacc]
          rw [hstep]
          have := ih { s with push_time := (t1 + b.offset) % U32,
                              prev_int_time := (t1 + b.offset) % U32,
                              wait_for_press := false }
            (Or.inr ⟨b.offset, rfl, hle⟩) hbs hord'
          simpa [IsrEffect.setsFlag, bounces] using this
        · have hstep : reset_button_isr s (t1 + b.offset) b.pin = (s, IsrEffect.ignored) := by
            simp [reset_button_isr, hw, hpin, hacc]
          rw [hstep]
          have := ih s (Or.inl hw) hbs hord'
          simpa [IsrEffect.setsFlag, bounces] using this
    | false =>
      rcases hinv with h | ⟨d, hprev, hd⟩
      · rw [hw] at h
        exact absurd h (by decide)
      · have hdb : d ≤ b.offset := hd b (List.mem_cons_self _ _)
        have hsub : sub32 ((t1 + b.offset) % U32) s.prev_int_time = b.offset - d := by
          rw [hprev]
          exact sub32_offset t1 d b.offset hdb (by unfold MAX_BOUNCING_TIME U32 at *; omega)
        have hstep : reset_button_isr s (t1 + b.offset) b.pin = (s, IsrEffect.ignored) := by
          have : ¬ b.offset - d > MAX_BOUNCING_TIME := by omega
          simp [reset_button_isr, hw, hsub, this]
        rw [hstep]
        have := ih s (Or.inr ⟨d, hprev, fun b' hb' => hd b' (List.mem_cons_of_mem _ hb')⟩)
          hbs hord'
        simpa [IsrEffect.setsFlag, bounces] using this

/-- The classification on both sides of the boundary and across a wrap of the
millisecond counter: 4999 ms and 5000 ms set `restart`, 5001 ms and 6000 ms set
`invalidate_eeprom`, and a press at `2^32 - 1000` released at 2000 (held
3000 ms) sets `restart`. -/
theorem isr_hold_boundary_cases :
    (reset_button_isr ⟨false, 1000, 1000, false, false⟩ 5999 HIGH).2 = IsrEffect.restart_set ∧
    (reset_button_isr ⟨false, 1000, 1000, false, false⟩ 6000 HIGH).2 = IsrEffect.restart_set ∧
    (reset_button_isr ⟨false, 1000, 1000, false, false⟩ 6001 HIGH).2 = IsrEffect.invalidate_set ∧
    (reset_button_isr ⟨false, 1000, 1000, false, false⟩ 7000 HIGH).2 = IsrEffect.invalidate_set ∧
    (reset_button_isr ⟨false, 4294966296, 4294966296, false, false⟩ 2000 HIGH).2 =
      IsrEffect.restart_set := by
  decide

/-- C1, at the boundary: a release accepted exactly `MIN_FACTORY_TIME` = 5000 ms
after the accepted press (press at `millis() = 1000`, release at 6000) sets
`restart` and leaves `invalidate_eeprom` clear, because line 147 compares the
held duration with `>`. -/
theorem isr_hold_of_exactly_5000_ms_sets_restart :
    sub32 6000 1000 = MIN_FACTORY_TIME ∧
    reset_button_isr
        { wait_for_press := false, push_time := 1000, prev_int_time := 1000,
          restart := false, invalidate_eeprom := false } 6000 HIGH =
      ({ wait_for_press := true, push_time := 1000, prev_int_time := 1000,
         restart := true, invalidate_eeprom := false }, IsrEffect.restart_set) := by
  decide

/-- C2, at a release bounce: from the initial state, a press at 1000 ms, its
release at 2000 ms and a bounce reading `LOW` at 2010 ms are all three accepted
transitions, the last two only 10 ms apart: the release branch does not store
the time of the release in `prev_int_time`. -/
theorem isr_accepts_press_10_ms_after_release :
    isrEffects IsrState.init [⟨1000, LOW⟩, ⟨2000, HIGH⟩, ⟨2010, LOW⟩] =
      [IsrEffect.press_accepted, IsrEffect.restart_set, IsrEffect.press_accepted] ∧
    acceptedTimes IsrState.init [⟨1000, LOW⟩, ⟨2000, HIGH⟩, ⟨2010, LOW⟩] = [1000, 2000, 2010] ∧
    2010 - 2000 < MAX_BOUNCING_TIME := by
  decide

theorem isr_effect_setsFlag_eq (s : IsrState) (e : Edge) :
    (reset_button_isr s e.millis e.pin).2.setsFlag = setsFlagFrom s e := by
  simp only [setsFlagFrom, reset_button_isr]
  cases hw : s.wait_for_press <;> split_ifs <;> simp_all [IsrEffect.setsFlag]

theorem isr_flags_kept (s : IsrState) (t pin : Nat)
    (h : (reset_button_isr s t pin).2.setsFlag = false) :
    (reset_button_isr s t pin).1.restart = s.restart ∧
      (reset_button_isr s t pin).1.invalidate_eeprom = s.invalidate_eeprom := by
  simp only [reset_button_isr] at h ⊢
  cases hw : s.wait_for_press <;> split_ifs at h ⊢ <;> simp_all [IsrEffect.setsFlag]

theorem flagSetCount_eq_flagSets (s : IsrState) (es : List Edge) :
    flagSetCount s es = flagSets s es := by
  induction es generalizing s with
  | nil => rfl
  | cons e es ih =>
    unfold flagSets at ih ⊢
    rw [flagSetCount, ih, isrEffects_cons, List.filter_cons, isr_effect_setsFlag_eq]
    cases setsFlagFrom s e
    · simp
    · simp
      omega

theorem isrFinal_append (s : IsrState) (l1 l2 : List Edge) :
    isrFinal s (l1 ++ l2) = isrFinal (isrFinal s l1) l2 := by
  induction l1 generalizing s with
  | nil => rfl
  | cons e es ih => simp [isrFinal, ih]

theorem isrFinal_flags_kept (s : IsrState) (es : List Edge)
    (h : (isrEffects s es).filter IsrEffect.setsFlag = []) :
    (isrFinal s es).restart = s.restart ∧
      (isrFinal s es).invalidate_eeprom = s.invalidate_eeprom := by
  induction es generalizing s with
  | nil => exact ⟨rfl, rfl⟩
  | cons e es ih =>
    rw [isrEffects_cons, List.filter_cons] at h
    cases hl : (reset_button_isr s e.millis e.pin).2.setsFlag with
    | true => simp [hl] at h
    | false =>
      simp only [hl] at h
      obtain ⟨k1, k2⟩ := isr_flags_kept s e.millis e.pin hl
      obtain ⟨i1, i2⟩ := ih (reset_button_isr s e.millis e.pin).1 (by simpa using h)
      exact ⟨by rw [isrFinal, i1, k1], by rw [isrFinal, i2, k2]⟩

/-- C9, for a press held for one period of the millisecond counter: from the
initial state a press at 1000 ms is accepted, and its release `2^32 + 50` ms
later, when `millis()` reads 1050, is within the bouncing time of the counter
difference and is ignored: no invocation sets a flag and both flags stay
clear. -/
theorem press_held_for_a_counter_period_sets_no_flag :
    MAX_BOUNCING_TIME < 4294967296 + 50 ∧
    (reset_button_isr IsrState.init 1000 LOW).1.wait_for_press = false ∧
    flagSetCount IsrState.init [⟨1000, LOW⟩, ⟨1000 + (4294967296 + 50), HIGH⟩] = 0 ∧
    (isrFinal IsrState.init [⟨1000, LOW⟩, ⟨1000 + (4294967296 + 50), HIGH⟩]).restart = false ∧
    (isrFinal IsrState.init
      [⟨1000, LOW⟩, ⟨1000 + (4294967296 + 50), HIGH⟩]).invalidate_eeprom = false := by
  decide

/-- C9, amended: one physical press delivered while waiting for a press: a
press edge reading `LOW` that is accepted at `t0` (the wait phase changes), any
bounces (any level) up to 100 ms after it, the release edge `d` ms after `t0`
with `100 < d < 2^32`, and any bounces (any level, in time order) up to 100 ms
after the release. Exactly one invocation of the whole sequence assigns a flag;
after the sequence `restart` is set when `d ≤ 5000` and `invalidate_eeprom` is
set when `d > 5000`, the other flag being as it was before the press. -/
theorem single_press_sets_exactly_one_flag (s : IsrState) (t0 d relPin : Nat)
    (bs1 bs2 : List Bounce)
    (hphase : s.wait_for_press = true)
    (hpress : (reset_button_isr s t0 LOW).1.wait_for_press = false)
    (hrel : MAX_BOUNCING_TIME < d) (hper : d < U32)
    (hb1 : ∀ b ∈ bs1, b.offset ≤ MAX_BOUNCING_TIME)
    (hb2 : ∀ b ∈ bs2, b.offset ≤ MAX_BOUNCING_TIME)
    (hord : bs2.Pairwise (fun a b => a.offset ≤ b.offset)) :
    flagSetCount s (⟨t0, LOW⟩ :: bounces t0 bs1 ++ ⟨t0 + d, relPin⟩ :: bounces (t0 + d) bs2)
      = 1 ∧
    flagSets s (⟨t0, LOW⟩ :: bounces t0 bs1 ++ ⟨t0 + d, relPin⟩ :: bounces (t0 + d) bs2)
      = 1 ∧
    (d ≤ MIN_FACTORY_TIME →
      (isrFinal s (⟨t0, LOW⟩ :: bounces t0 bs1 ++
          ⟨t0 + d, relPin⟩ :: bounces (t0 + d) bs2)).restart = true ∧
      (isrFinal s (⟨t0, LOW⟩ :: bounces t0 bs1 ++
          ⟨t0 + d, relPin⟩ :: bounces (t0 + d) bs2)).invalidate_eeprom
        = s.invalidate_eeprom) ∧
    (MIN_FACTORY_TIME < d →
      (isrFinal s (⟨t0, LOW⟩ :: bounces t0 bs1 ++
          ⟨t0 + d, relPin⟩ :: bounces (t0 + d) bs2)).invalidate_eeprom = true ∧
      (isrFinal s (⟨t0, LOW⟩ :: bounces t0 bs1 ++
          ⟨t0 + d, relPin⟩ :: bounces (t0 + d) bs2)).restart = s.restart) := by
  have hacc : sub32 (t0 % U32) s.prev_int_time > MAX_BOUNCING_TIME := by
    by_contra hn
    simp [reset_button_isr, hphase, hn, LOW] at hpress
  have hstep0 : reset_button_isr s t0 LOW =
      ({ s with push_time := t0 % U32, prev_int_time := t0 % U32, wait_for_press := false },
        IsrEffect.press_accepted) := by
    simp [reset_button_isr, hphase, hacc, LOW]
  obtain ⟨hfin, hnone1⟩ := isr_bounces_during_hold t0 bs1
    { s with push_time := t0 % U32, prev_int_time := t0 % U32, wait_for_press := false }
    rfl rfl hb1
  have hd : sub32 ((t0 + d) % U32) (t0 % U32) = d := by
    have := sub32_offset t0 0 d (Nat.zero_le _) (by omega)
    simpa using this
  have hcls := isr_release_classification
    { s with push_time := t0 % U32, prev_int_time := t0 % U32, wait_for_press := false }
    (t0 + d) relPin rfl (by rw [hd]; exact hrel)
  simp only [hd] at hcls
  have hfinal : isrFinal s (⟨t0, LOW⟩ :: bounces t0 bs1 ++
        ⟨t0 + d, relPin⟩ :: bounces (t0 + d) bs2) =
      isrFinal (reset_button_isr
          { s with push_time := t0 % U32, prev_int_time := t0 % U32, wait_for_press := false }
          (t0 + d) relPin).1 (bounces (t0 + d) bs2) := by
    rw [List.cons_append, isrFinal, hstep0, isrFinal_append, hfin, isrFinal]
  have hlabels : flagSets s (⟨t0, LOW⟩ :: bounces t0 bs1 ++
        ⟨t0 + d, relPin⟩ :: bounces (t0 + d) bs2) = 1 := by
    unfold flagSets
    rw [List.cons_append, isrEffects_cons, hstep0, isrEffects_append, hfin, isrEffects_cons]
    simp only [List.filter_cons, List.filter_append, hnone1, List.nil_append]
    by_cases hlong : MIN_FACTORY_TIME < d
    · rw [hcls.2 hlong]
      have := isr_bounces_after_release (t0 + d) bs2
        { s with push_time := t0 % U32, prev_int_time := t0 % U32, wait_for_press := true,
                 invalidate_eeprom := true }
        (Or.inl rfl) hb2 hord
      simp [IsrEffect.setsFlag, this]
    · rw [hcls.1 (by omega)]
      have := isr_bounces_after_release (t0 + d) bs2
        { s with push_time := t0 % U32, prev_int_time := t0 % U32, wait_for_press := true,
                 restart := true }
        (Or.inl rfl) hb2 hord
      simp [IsrEffect.setsFlag, this]
  refine ⟨by rw [flagSetCount_eq_flagSets]; exact hlabels, hlabels, ?_, ?_⟩
  · intro hshort
    rw [hfinal, hcls.1 hshort]
    have hnone := isr_bounces_after_release (t0 + d) bs2
      { s with push_time := t0 % U32, prev_int_time := t0 % U32, wait_for_press := true,
               restart := true }
      (Or.inl rfl) hb2 hord
    exact isrFinal_flags_kept _ _ hnone
  · intro hlong
    rw [hfinal, hcls.2 hlong]
    have hnone := isr_bounces_after_release (t0 + d) bs2
      { s with push_time := t0 % U32, prev_int_time := t0 % U32, wait_for_press := true,
               invalidate_eeprom := true }
      (Or.inl rfl) hb2 hord
    obtain ⟨k1, k2⟩ := isrFinal_flags_kept _ _ hnone
    exact ⟨k2, k1⟩

/-- Witness of C9 amended: a press at 1000 ms with bounces 10 and 40 ms later
(30 ms apart), released 2000 ms after the press with bounces 5 and 35 ms later:
one invocation assigns a flag, and `restart` is set afterwards. -/
theorem single_press_sets_exactly_one_flag_witness :
    flagSetCount IsrState.init
        (⟨1000, LOW⟩ :: bounces 1000 [⟨10, HIGH⟩, ⟨40, LOW⟩] ++
          ⟨1000 + 2000, HIGH⟩ :: bounces (1000 + 2000) [⟨5, LOW⟩, ⟨35, HIGH⟩]) = 1 ∧
    (isrFinal IsrState.init
        (⟨1000, LOW⟩ :: bounces 1000 [⟨10, HIGH⟩, ⟨40, LOW⟩] ++
          ⟨1000 + 2000, HIGH⟩ :: bounces (1000 + 2000) [⟨5, LOW⟩, ⟨35, HIGH⟩])).restart
      = true :=
  have h := single_press_sets_exactly_one_flag IsrState.init 1000 2000 HIGH
    [⟨10, HIGH⟩, ⟨40, LOW⟩] [⟨5, LOW⟩, ⟨35, HIGH⟩]
    rfl (by decide) (by decide) (by decide) (by decide) (by decide) (by decide)
  ⟨h.1, (h.2.2.1 (by decide)).1⟩

/-! ## Theorems: configuration record and boot -/

theorem takeWhile_append_zero (l r : List Nat) (hl : ∀ c ∈ l, c ≠ 0) :
    (l ++ 0 :: r).takeWhile (fun c => c ≠ 0) = l := by
  induction l with
  | nil => simp
  | cons a l ih =>
    have ha : a ≠ 0 := hl a (List.mem_cons_self _ _)
    have := ih (fun c hc => hl c (List.mem_cons_of_mem _ hc))
    rw [List.cons_append, List.takeWhile_cons, this]
    simp [ha]

theorem cstr_strcpy (dst src : List Nat) : cstr (strcpy dst src) = cstr src := by
  unfold strcpy
  have h : ∀ c ∈ cstr src, c ≠ 0 := by
    intro c hc
    have := List.mem_takeWhile_imp hc
    simpa using this
  exact takeWhile_append_zero (cstr src) _ h

theorem cstr_set_zero (buf : List Nat) : cstr (buf.set 0 0) = [] := by
  cases buf <;> simp [cstr]

theorem cstr_DEFAULT_NAME :
    cstr DEFAULT_NAME = [99, 111, 110, 116, 114, 111, 108, 115, 101, 117] := by
  decide

/-- The bytes of `DEFAULT_NAME` before the terminator spell `controlseu`. -/
theorem DEFAULT_NAME_spelling :
    (cstr DEFAULT_NAME).map Char.ofNat = "controlseu".toList := by
  decide

theorem setFactoryDefaults_values (cmo : List Nat) (p : eeprom_params_t) :
    (setFactoryDefaults cmo p).values = factoryValues cmo := by
  simp [setFactoryDefaults, eeprom_params_t.values, factoryValues, cstr_strcpy, cstr_set_zero,
    cstr_DEFAULT_NAME, FACTORY_VALIDATION_CODE]

theorem setup_factory_default_params (cmo : List Nat) (g : Globals) (inp : SetupInput) :
    (setup cmo g inp).1.factory_default_params =
      setFactoryDefaults cmo g.factory_default_params := by
  unfold setup
  simp only []
  split_ifs <;> rfl

theorem setup_cases (c : List Nat) (h : Globals)
    (i : SetupInput) :
    (i.loaded.validation_code = 0xAABBCCDD →
      (setup c h i).1.run_mode = RunMode.RUN_AS_STA ∧
      (setup c h i).1.eeprom_params = i.loaded) ∧
    (i.loaded.validation_code ≠ 0xAABBCCDD →
      (setup c h i).1.run_mode = RunMode.RUN_AS_AP ∧
      (setup c h i).1.eeprom_params = setFactoryDefaults c i.loaded) := by
  constructor
  · intro hv
    simp [setup, setFactoryDefaults, FACTORY_VALIDATION_CODE, hv]
  · intro hv
    simp [setup, setFactoryDefaults, FACTORY_VALIDATION_CODE, hv]

/-- C3: `setup` selects station mode and keeps the loaded record exactly when
the validation code of the loaded record is `0xAABBCCDD`; otherwise it selects
access-point mode and the record in memory becomes the factory defaults (the
same values as `factory_default_params`). Two boots whose loaded records carry
the same validation code select the same mode, whatever the other fields and
the other inputs are. -/
theorem setup_mode_is_decided_by_validation_code (cmo : List Nat) (g : Globals)
    (inp : SetupInput) :
    (((setup cmo g inp).1.run_mode = RunMode.RUN_AS_STA ∧
        (setup cmo g inp).1.eeprom_params = inp.loaded) ↔
      inp.loaded.validation_code = 0xAABBCCDD) ∧
    (inp.loaded.validation_code ≠ 0xAABBCCDD →
      (setup cmo g inp).1.run_mode = RunMode.RUN_AS_AP ∧
      (setup cmo g inp).1.eeprom_params = setFactoryDefaults cmo inp.loaded ∧
      (setup cmo g inp).1.eeprom_params.values = factoryValues cmo ∧
      (setup cmo g inp).1.eeprom_params.values =
        (setup cmo g inp).1.factory_default_params.values) ∧
    (∀ (cmo2 : List Nat) (g2 : Globals) (inp2 : SetupInput),
      inp2.loaded.validation_code = inp.loaded.validation_code →
      (setup cmo2 g2 inp2).1.run_mode = (setup cmo g inp).1.run_mode) := by
  have hmode := setup_cases
  refine ⟨⟨?_, ?_⟩, ?_, ?_⟩
  · rintro ⟨hsta, -⟩
    by_contra hv
    rw [((hmode cmo g inp).2 hv).1] at hsta
    exact absurd hsta (by decide)
  · exact (hmode cmo g inp).1
  · intro hv
    obtain ⟨h1, h2⟩ := (hmode cmo g inp).2 hv
    refine ⟨h1, h2, ?_, ?_⟩
    · rw [h2, setFactoryDefaults_values]
    · rw [h2, setup_factory_default_params, setFactoryDefaults_values,
        setFactoryDefaults_values]
  · intro cmo2 g2 inp2 hsame
    by_cases hv : inp.loaded.validation_code = 0xAABBCCDD
    · rw [((hmode cmo g inp).1 hv).1, ((hmode cmo2 g2 inp2).1 (hsame.trans hv)).1]
    · rw [((hmode cmo g inp).2 hv).1,
        ((hmode cmo2 g2 inp2).2 (fun h => hv (hsame.symm.trans h))).1]

/-- Witness of C3: a never-written record boots into access-point mode with
the factory defaults in memory, the sample valid record boots into station mode
unchanged. -/
theorem setup_mode_is_decided_by_validation_code_witness :
    ((setup sampleModeOff powerOn ⟨true, blankRecord, true, true⟩).1.run_mode
        = RunMode.RUN_AS_AP ∧
      (setup sampleModeOff powerOn ⟨true, blankRecord, true, true⟩).1.eeprom_params.values
        = factoryValues sampleModeOff) ∧
    ((setup sampleModeOff powerOn ⟨true, sampleRecord, true, true⟩).1.run_mode
        = RunMode.RUN_AS_STA ∧
      (setup sampleModeOff powerOn ⟨true, sampleRecord, true, true⟩).1.eeprom_params
        = sampleRecord) :=
  ⟨have h := (setup_mode_is_decided_by_validation_code sampleModeOff powerOn
      ⟨true, blankRecord, true, true⟩).2.1 (by decide)
   ⟨h.1, h.2.2.1⟩,
   (setup_mode_is_decided_by_validation_code sampleModeOff powerOn
      ⟨true, sampleRecord, true, true⟩).1.2 (by decide)⟩

/-! ## Theorems: the flag checks of `loop` -/

theorem loop_restart (g : Globals) (inp : LoopInput) (h : g.restart = true) :
    loop g inp =
      (g, [Action.serial "\nRestarting in 2 seconds...", Action.delay 2000,
           Action.esp_restart]) := by
  simp [loop, h]

theorem loop_invalidate (g : Globals) (inp : LoopInput) (hr : g.restart = false)
    (hi : g.invalidate_eeprom = true) :
    (loop g inp).2 =
      [Action.eeprom_writeBytes
         { g.eeprom_params with
           validation_code := add32 g.factory_default_params.validation_code 1 },
       Action.eeprom_commit,
       Action.serial "\nInvalidating EEPROM and restarting as AP in 2 seconds...",
       Action.delay 2000, Action.esp_restart] := by
  simp [loop, hr, hi]

theorem loop_no_flag_writes_nothing (g : Globals) (inp : LoopInput)
    (hi : g.invalidate_eeprom = false) : writtenRecords (loop g inp).2 = [] := by
  unfold loop
  by_cases hr : g.restart = true
  · simp [hr, writtenRecords]
  · simp only [hr, hi]
    by_cases hm : g.run_mode = RunMode.RUN_AS_AP
    · by_cases hl : (inp.millis % U32 / 500) % 2 ≠ 0 <;> simp [hm, hl, writtenRecords]
    · cases h1 : inp.status_241 <;> cases h2 : inp.status_106 <;> cases h3 : inp.status_260 <;>
        cases h4 : g.first_time <;> cases h5 : inp.status_97 <;> cases h6 : inp.mdns_ok <;>
        simp [hm, wifi_connection, h1, h2, h3, h4, h5, h6, writtenRecords]

theorem loop_written_record (g : Globals) (inp : LoopInput) (r : eeprom_params_t)
    (hw : r ∈ writtenRecords (loop g inp).2) :
    r = { g.eeprom_params with
          validation_code := add32 g.factory_default_params.validation_code 1 } := by
  by_cases hi : g.invalidate_eeprom = true
  · by_cases hr : g.restart = true
    · rw [loop_restart g inp hr] at hw
      simp [writtenRecords] at hw
    · rw [loop_invalidate g inp (by simpa using hr) hi] at hw
      simpa [writtenRecords] using hw
  · rw [loop_no_flag_writes_nothing g inp (by simpa using hi)] at hw
    simp at hw

/-- C4, with both flags set: the iteration prints, waits 2000 ms and restarts;
nothing is written to storage and nothing is committed, because the `restart`
check of line 207 runs first and `ESP.restart()` does not return. -/
theorem loop_with_both_flags_restarts_without_writing :
    (loop { sampleStation with restart := true, invalidate_eeprom := true } connectedInput).2 =
      [Action.serial "\nRestarting in 2 seconds...", Action.delay 2000, Action.esp_restart] ∧
    writtenRecords
      (loop { sampleStation with restart := true, invalidate_eeprom := true }
        connectedInput).2 = [] ∧
    Action.eeprom_commit ∉
      (loop { sampleStation with restart := true, invalidate_eeprom := true }
        connectedInput).2 := by
  rw [loop_restart _ _ rfl]
  simp [writtenRecords]

/-- C4, amended: an iteration that starts with `invalidate_eeprom` set and
`restart` clear, in either run mode, writes the record with the invalid
validation code, commits, prints, waits 2000 ms and restarts, in this order;
apart from the console output these are its only actions. -/
theorem loop_reprovision_writes_commits_waits_restarts (g : Globals) (inp : LoopInput)
    (hi : g.invalidate_eeprom = true) (hr : g.restart = false) :
    (loop g inp).2 =
      [Action.eeprom_writeBytes
         { g.eeprom_params with
           validation_code := add32 g.factory_default_params.validation_code 1 },
       Action.eeprom_commit,
       Action.serial "\nInvalidating EEPROM and restarting as AP in 2 seconds...",
       Action.delay 2000, Action.esp_restart] ∧
    (loop g inp).2.filter (fun a => !a.isDiagnostic) =
      [Action.eeprom_writeBytes
         { g.eeprom_params with
           validation_code := add32 g.factory_default_params.validation_code 1 },
       Action.eeprom_commit, Action.delay 2000, Action.esp_restart] := by
  rw [loop_invalidate g inp hr hi]
  simp [Action.isDiagnostic]

/-- Witness of C4 amended: the sample station with `invalidate_eeprom` set. -/
theorem loop_reprovision_writes_commits_waits_restarts_witness :
    (loop { sampleStation with invalidate_eeprom := true } connectedInput).2.filter
        (fun a => !a.isDiagnostic) =
      [Action.eeprom_writeBytes
         { sampleRecord with validation_code := 0xAABBCCDE },
       Action.eeprom_commit, Action.delay 2000, Action.esp_restart] :=
  (loop_reprovision_writes_commits_waits_restarts
    { sampleStation with invalidate_eeprom := true } connectedInput rfl rfl).2

/-- C6: an iteration that starts with `restart` set, in either run mode and
whatever the inputs, prints one console line, waits 2000 ms and restarts:
apart from the console line the wait and the restart are its only actions, and
none of its actions belongs to the per-mode part of `loop`. -/
theorem loop_restart_request_precedes_modal_logic (g : Globals) (inp : LoopInput)
    (hr : g.restart = true) :
    (loop g inp).2 =
      [Action.serial "\nRestarting in 2 seconds...", Action.delay 2000, Action.esp_restart] ∧
    (loop g inp).2.filter (fun a => !a.isDiagnostic) =
      [Action.delay 2000, Action.esp_restart] ∧
    (∀ a ∈ (loop g inp).2, a.isModal = false) := by
  rw [loop_restart g inp hr]
  simp [Action.isDiagnostic, Action.isModal]

/-- Witness of C6: the sample station with `restart` set. -/
theorem loop_restart_request_precedes_modal_logic_witness :
    (loop { sampleStation with restart := true } connectingInput).2.filter
        (fun a => !a.isDiagnostic) =
      [Action.delay 2000, Action.esp_restart] :=
  (loop_restart_request_precedes_modal_logic
    { sampleStation with restart := true } connectingInput rfl).2.1

/-- C5: in a session booted by `setup`, every record that `loop` writes to
storage carries the validation code `(0xAABBCCDD + 1) mod 2^32 = 0xAABBCCDE`,
which is not the factory code; a boot that loads this record selects
access-point mode; and invalidating again, starting from the invalidated
record, writes the very same record, so the code stays invalid. -/
theorem reprovision_marker_is_invalid_and_stays_invalid (cmo : List Nat)
    (g0 : Globals) (sinp : SetupInput) (g : Globals) (inp : LoopInput) (r : eeprom_params_t)
    (hboot : g.factory_default_params = (setup cmo g0 sinp).1.factory_default_params)
    (hw : r ∈ writtenRecords (loop g inp).2) :
    r.validation_code = add32 0xAABBCCDD 1 ∧
    r.validation_code = 0xAABBCCDE ∧
    r.validation_code ≠ FACTORY_VALIDATION_CODE ∧
    (∀ (g1 : Globals) (sinp1 : SetupInput), sinp1.loaded = r →
      (setup cmo g1 sinp1).1.run_mode = RunMode.RUN_AS_AP) ∧
    (∀ (g2 : Globals) (inp2 : LoopInput) (r2 : eeprom_params_t),
      g2.factory_default_params = g.factory_default_params → g2.eeprom_params = r →
      r2 ∈ writtenRecords (loop g2 inp2).2 → r2 = r) := by
  have hr := loop_written_record g inp r hw
  have hcode : g.factory_default_params.validation_code = 0xAABBCCDD := by
    rw [hboot, setup_factory_default_params]
    rfl
  have hv : r.validation_code = 0xAABBCCDE := by
    rw [hr]
    simp only [hcode]
    decide
  refine ⟨by rw [hv]; decide, hv, by rw [hv]; decide, ?_, ?_⟩
  · intro g1 sinp1 hl
    have hne : sinp1.loaded.validation_code ≠ 0xAABBCCDD := by
      rw [hl, hv]
      decide
    exact ((setup_cases cmo g1 sinp1).2 hne).1
  · intro g2 inp2 r2 hf he hw2
    have h2 := loop_written_record g2 inp2 r2 hw2
    rw [h2, he, hf, hr]

/-- Witness of C5: the reprovision path run on the sample station. -/
theorem reprovision_marker_is_invalid_and_stays_invalid_witness :
    ({ sampleRecord with validation_code := 0xAABBCCDE } : eeprom_params_t) ∈
        writtenRecords (loop { sampleStation with invalidate_eeprom := true } connectedInput).2 ∧
      ({ sampleRecord with validation_code := 0xAABBCCDE } : eeprom_params_t).validation_code
        ≠ FACTORY_VALIDATION_CODE :=
  ⟨by decide,
   (reprovision_marker_is_invalid_and_stays_invalid sampleModeOff powerOn
      ⟨true, sampleRecord, true, true⟩ { sampleStation with invalidate_eeprom := true }
      connectedInput { sampleRecord with validation_code := 0xAABBCCDE } rfl
      (by decide)).2.2.1⟩

/-- C7, on the sample station: the record that the reprovision path writes
still holds the station SSID `home-net`, the password `secret` and the device
name `kitchen`; only the validation code differs from the record in memory. -/
theorem reprovision_path_keeps_stored_credentials :
    writtenRecords (loop { sampleStation with invalidate_eeprom := true } connectedInput).2 =
      [{ sampleRecord with validation_code := 0xAABBCCDE }] ∧
    ({ sampleRecord with validation_code := 0xAABBCCDE } : eeprom_params_t).values.ssid_sta =
      [104, 111, 109, 101, 45, 110, 101, 116] ∧
    ({ sampleRecord with validation_code := 0xAABBCCDE } : eeprom_params_t).values.ssid_sta ≠
      (factoryValues sampleModeOff).ssid_sta ∧
    ({ sampleRecord with validation_code := 0xAABBCCDE } : eeprom_params_t).values.password_sta ≠
      (factoryValues sampleModeOff).password_sta ∧
    ({ sampleRecord with validation_code := 0xAABBCCDE } : eeprom_params_t).values.name ≠
      (factoryValues sampleModeOff).name := by
  decide

/-- C7, amended: in a session booted by `setup`, an iteration of `loop` that
starts with `invalidate_eeprom` set and `restart` clear writes exactly one
record to storage; that record, which is also the record left in memory,
carries the incremented factory code `0xAABBCCDE` and, in every other field,
what the record in memory held before the iteration. The factory defaults
replace those fields only at the next boot: `setup`, loading the written
record, selects access-point mode and applies `setFactoryDefaults` to it. -/
theorem reprovision_path_changes_only_validation_code (cmo : List Nat) (g0 : Globals)
    (sinp : SetupInput) (g : Globals) (inp : LoopInput)
    (hboot : g.factory_default_params = (setup cmo g0 sinp).1.factory_default_params)
    (hi : g.invalidate_eeprom = true) (hr : g.restart = false) :
    ∃ r : eeprom_params_t,
      writtenRecords (loop g inp).2 = [r] ∧
      (loop g inp).1.eeprom_params = r ∧
      r.validation_code = add32 g.factory_default_params.validation_code 1 ∧
      r.validation_code = 0xAABBCCDE ∧
      r.ssid_sta = g.eeprom_params.ssid_sta ∧
      r.password_sta = g.eeprom_params.password_sta ∧
      r.name = g.eeprom_params.name ∧
      r.temp_setpoint = g.eeprom_params.temp_setpoint ∧
      r.hum_setpoint = g.eeprom_params.hum_setpoint ∧
      r.control_mode = g.eeprom_params.control_mode ∧
      (∀ (g1 : Globals) (sinp1 : SetupInput), sinp1.loaded = r →
        (setup cmo g1 sinp1).1.run_mode = RunMode.RUN_AS_AP ∧
        (setup cmo g1 sinp1).1.eeprom_params = setFactoryDefaults cmo r ∧
        (setup cmo g1 sinp1).1.eeprom_params.values = factoryValues cmo) := by
  have hcode : g.factory_default_params.validation_code = 0xAABBCCDD := by
    rw [hboot, setup_factory_default_params]
    rfl
  have hv : add32 g.factory_default_params.validation_code 1 = 0xAABBCCDE := by
    rw [hcode]
    decide
  refine ⟨{ g.eeprom_params with
            validation_code := add32 g.factory_default_params.validation_code 1 },
    ?_, ?_, rfl, hv, rfl, rfl, rfl, rfl, rfl, rfl, ?_⟩
  · rw [loop_invalidate g inp hr hi]
    simp [writtenRecords]
  · simp [loop, hr, hi]
  · intro g1 sinp1 hl
    have hne : sinp1.loaded.validation_code ≠ 0xAABBCCDD := by
      rw [hl]
      simp only [hv]
      decide
    obtain ⟨h1, h2⟩ := (setup_cases cmo g1 sinp1).2 hne
    refine ⟨h1, ?_, ?_⟩
    · rw [h2, hl]
    · rw [h2, setFactoryDefaults_values]

/-- Witness of C7 amended: the reprovision path run on the sample station
writes the sample record with the code `0xAABBCCDE` and its SSID `home-net`,
and the boot that loads it ends with the factory defaults in memory. -/
theorem reprovision_path_changes_only_validation_code_witness :
    ∃ r : eeprom_params_t,
      writtenRecords
          (loop { sampleStation with invalidate_eeprom := true } connectedInput).2 = [r] ∧
      r.validation_code = 0xAABBCCDE ∧
      r.ssid_sta = sampleRecord.ssid_sta ∧
      (setup sampleModeOff powerOn ⟨true, r, true, true⟩).1.eeprom_params.values
        = factoryValues sampleModeOff :=
  have ⟨r, h⟩ := reprovision_path_changes_only_validation_code sampleModeOff powerOn
    ⟨true, sampleRecord, true, true⟩ { sampleStation with invalidate_eeprom := true }
    connectedInput rfl rfl rfl
  ⟨r, h.1, h.2.2.2.1, h.2.2.2.2.1,
    (h.2.2.2.2.2.2.2.2.2.2 powerOn ⟨true, r, true, true⟩ rfl).2.2⟩

/-! ## Theorems: station mode -/

theorem loop_station_no_flag (g : Globals) (inp : LoopInput)
    (hm : g.run_mode = RunMode.RUN_AS_STA) (hr : g.restart = false)
    (hi : g.invalidate_eeprom = false) :
    (loop g inp).1.run_mode = RunMode.RUN_AS_STA ∧
    (loop g inp).1.restart = false ∧
    (loop g inp).1.invalidate_eeprom = false ∧
    Action.esp_restart ∉ (loop g inp).2 ∧
    ((loop g inp).2.filter Action.isServerBegin).length = (if inp.connects then 1 else 0) ∧
    ((loop g inp).2.filter Action.isRouteRegistration).length =
      (if inp.connects then 2 else 0) := by
  unfold loop
  simp only [hr, hi, hm]
  cases h1 : inp.status_241 <;> cases h2 : inp.status_106 <;> cases h3 : inp.status_260 <;>
    cases h4 : g.first_time <;> cases h5 : inp.status_97 <;> cases h6 : inp.mdns_ok <;>
    simp [wifi_connection, h1, h2, h3, h4, h5, h6, hm, hr, hi, LoopInput.connects,
      Action.isServerBegin, Action.isRouteRegistration]

theorem loopRun_station_starts (inps : List LoopInput) (g : Globals)
    (hm : g.run_mode = RunMode.RUN_AS_STA) (hr : g.restart = false)
    (hi : g.invalidate_eeprom = false) :
    (loopRun g inps).length = inps.length ∧
    serverStarts (loopRun g inps) = (inps.filter LoopInput.connects).length ∧
    routeRegistrations (loopRun g inps) = 2 * (inps.filter LoopInput.connects).length := by
  induction inps generalizing g with
  | nil => simp [loopRun, serverStarts, routeRegistrations]
  | cons i is ih =>
    obtain ⟨h1, h2, h3, h4, h5, h6⟩ := loop_station_no_flag g i hm hr hi
    obtain ⟨ihl, ihs, ihr⟩ := ih (loop g i).1 h1 h2 h3
    unfold serverStarts routeRegistrations at *
    simp only [loopRun, h4, if_false, List.length_cons, ihl, List.map_cons, List.sum_cons, h5,
      h6, ihs, ihr, List.filter_cons]
    cases i.connects
    · simp
    · simp
      omega

theorem loopRun_station_startsPerIteration (inps : List LoopInput) (g : Globals)
    (hm : g.run_mode = RunMode.RUN_AS_STA) (hr : g.restart = false)
    (hi : g.invalidate_eeprom = false) :
    startsPerIteration (loopRun g inps) =
      inps.map (fun i => if i.connects then 1 else 0) := by
  induction inps generalizing g with
  | nil => simp [loopRun, startsPerIteration]
  | cons i is ih =>
    obtain ⟨h1, h2, h3, h4, h5, -⟩ := loop_station_no_flag g i hm hr hi
    have ih' := ih (loop g i).1 h1 h2 h3
    unfold startsPerIteration at ih' ⊢
    simp only [loopRun, h4, if_false, List.map_cons, h5, ih']

theorem map_eq_replicate_zero (l : List LoopInput) (f : LoopInput → Nat)
    (h : ∀ i ∈ l, f i = 0) : l.map f = List.replicate l.length 0 := by
  induction l with
  | nil => rfl
  | cons a l ih =>
    rw [List.map_cons, List.length_cons, List.replicate_succ, h a (List.mem_cons_self _ _),
      ih (fun i hi => h i (List.mem_cons_of_mem _ hi))]

/-- An association completed only after `wifi_connection` has returned: in the
run of the sample station over `lateInput` and two iterations with the
association established, `server.handleClient()` is called in every iteration
and `server.begin()` in none. -/
theorem late_association_run :
    startsPerIteration (loopRun sampleStation [lateInput, connectedInput, connectedInput]) =
      [0, 0, 0] ∧
    (∀ t ∈ loopRun sampleStation [lateInput, connectedInput, connectedInput],
      Action.server_handleClient ∈ t) := by
  decide

/-- C8, after a lost association: three station-mode iterations with no flag
set, in which the association is established in the first, seen established in
the second, and found lost and established again in the third, start the web
server twice. -/
theorem endpoint_started_again_after_reconnection :
    loopRun sampleStation [connectingInput, connectedInput, reconnectingInput] ≠ [] ∧
    serverStarts (loopRun sampleStation [connectingInput, connectedInput, reconnectingInput])
      = 2 := by
  have h := loopRun_station_starts [connectingInput, connectedInput, reconnectingInput]
    sampleStation rfl rfl rfl
  constructor
  · intro hnil
    have := h.1
    rw [hnil] at this
    simp at this
  · rw [h.2.1]
    decide

/-- C8, amended: a run of station-mode iterations with no flag set whose
status readings are all not connected in the first iterations (`pre`), in which
`wifi_connection` then returns connected in an iteration entered without
association (`c`), and whose readings are connected from then on (`post`). The
web server is started exactly once in the run, with its two route
registrations: not in the iterations before `c`, once in `c`, the iteration
where the connection is first established, and in no later iteration. -/
theorem endpoint_started_when_connection_is_established (g : Globals)
    (pre post : List LoopInput) (c : LoopInput)
    (hm : g.run_mode = RunMode.RUN_AS_STA) (hr : g.restart = false)
    (hi : g.invalidate_eeprom = false)
    (hpre : ∀ i ∈ pre, i.status_241 = false ∧ i.status_97 = false ∧
      i.status_106 = false ∧ i.status_260 = false)
    (hc : c.status_241 = false ∧ c.status_106 = true ∧ c.status_260 = true)
    (hpost : ∀ i ∈ post, i.status_241 = true ∧ i.status_260 = true) :
    (loopRun g (pre ++ c :: post)).length = pre.length + 1 + post.length ∧
    startsPerIteration (loopRun g (pre ++ c :: post)) =
      List.replicate pre.length 0 ++ 1 :: List.replicate post.length 0 ∧
    serverStarts (loopRun g (pre ++ c :: post)) = 1 ∧
    routeRegistrations (loopRun g (pre ++ c :: post)) = 2 := by
  obtain ⟨hl, hs, hrt⟩ := loopRun_station_starts (pre ++ c :: post) g hm hr hi
  have hper := loopRun_station_startsPerIteration (pre ++ c :: post) g hm hr hi
  have hpre0 : pre.map (fun i => if i.connects then 1 else 0) =
      List.replicate pre.length 0 := by
    apply map_eq_replicate_zero
    intro i hmem
    simp [LoopInput.connects, (hpre i hmem).2.2.1]
  have hpost0 : post.map (fun i => if i.connects then 1 else 0) =
      List.replicate post.length 0 := by
    apply map_eq_replicate_zero
    intro i hmem
    simp [LoopInput.connects, (hpost i hmem).1]
  have hc1 : (if c.connects then 1 else 0) = 1 := by
    simp [LoopInput.connects, hc.1, hc.2.1]
  have hlist : startsPerIteration (loopRun g (pre ++ c :: post)) =
      List.replicate pre.length 0 ++ 1 :: List.replicate post.length 0 := by
    rw [hper, List.map_append, List.map_cons, hpre0, hpost0, hc1]
  have hsum : serverStarts (loopRun g (pre ++ c :: post)) = 1 := by
    have : serverStarts (loopRun g (pre ++ c :: post)) =
        (startsPerIteration (loopRun g (pre ++ c :: post))).sum := rfl
    rw [this, hlist]
    simp
  refine ⟨?_, hlist, hsum, ?_⟩
  · rw [hl]
    simp
    omega
  · rw [hrt, ← hs, hsum]

/-- Witness of C8 amended: one iteration without association, one in which
`wifi_connection` returns connected, two with the association kept: the server
is started in the second iteration only. -/
theorem endpoint_started_when_connection_is_established_witness :
    startsPerIteration
        (loopRun sampleStation
          ([waitingInput] ++ connectingInput :: [connectedInput, connectedInput])) =
      List.replicate [waitingInput].length 0 ++
        1 :: List.replicate [connectedInput, connectedInput].length 0 ∧
    serverStarts
        (loopRun sampleStation
          ([waitingInput] ++ connectingInput :: [connectedInput, connectedInput])) = 1 :=
  have h := endpoint_started_when_connection_is_established sampleStation
    [waitingInput] [connectedInput, connectedInput] connectingInput rfl rfl rfl
    (by decide) (by decide) (by decide)
  ⟨h.2.1, h.2.2.1⟩

/-! ## Theorems: hardware abstraction layer -/

theorem setControlState_effect (h : HalState) (a : Int) :
    (setControlState h a).controlState = a ∧
    (setControlState h a).pinLevels CONTROL_PIN = some (if a = ON then HIGH else LOW) ∧
    ((setControlState h a).pinModes CONTROL_PIN = some PinDirection.OUTPUT ∨
      (setControlState h a).pinModes CONTROL_PIN = h.pinModes CONTROL_PIN) := by
  unfold setControlState
  cases hf : h.setControlState_firstTime <;> by_cases ha : a = ON <;>
    simp [hf, ha, digitalWrite, pinMode]

theorem setStatusLed_effect (h : HalState) (a : Int) :
    (setStatusLed h a).controlState = a ∧
    (setStatusLed h a).pinLevels CONTROL_PIN = some (if a = ON then HIGH else LOW) ∧
    ((setStatusLed h a).pinModes CONTROL_PIN = some PinDirection.OUTPUT ∨
      (setStatusLed h a).pinModes CONTROL_PIN = h.pinModes CONTROL_PIN) := by
  unfold setStatusLed
  cases hf : h.setStatusLed_firstTime <;> by_cases ha : a = ON <;>
    simp [hf, ha, digitalWrite, pinMode]

theorem halRun_last (calls : List HalCall) (c : HalCall) (h : HalState) :
    (halRun h (c :: calls)).controlState = ((c :: calls).getLast (List.cons_ne_nil _ _)).arg ∧
    (halRun h (c :: calls)).pinLevels CONTROL_PIN =
      some (if ((c :: calls).getLast (List.cons_ne_nil _ _)).arg = ON then HIGH else LOW) := by
  induction calls generalizing c h with
  | nil =>
    cases c with
    | setControlState a =>
      have := setControlState_effect h a
      simpa [halRun, HalCall.arg] using ⟨this.1, this.2.1⟩
    | setStatusLed a =>
      have := setStatusLed_effect h a
      simpa [halRun, HalCall.arg] using ⟨this.1, this.2.1⟩
  | cons d ds ih =>
    cases c with
    | setControlState a =>
      have := ih d (setControlState h a)
      simpa [halRun, List.getLast_cons] using this
    | setStatusLed a =>
      have := ih d (setStatusLed h a)
      simpa [halRun, List.getLast_cons] using this

theorem halRun_keeps_output (calls : List HalCall) (h : HalState)
    (hout : h.pinModes CONTROL_PIN = some PinDirection.OUTPUT) :
    (halRun h calls).pinModes CONTROL_PIN = some PinDirection.OUTPUT := by
  induction calls generalizing h with
  | nil => simpa [halRun] using hout
  | cons c cs ih =>
    cases c with
    | setControlState a =>
      apply ih
      rcases (setControlState_effect h a).2.2 with h1 | h1
      · exact h1
      · rw [h1, hout]
    | setStatusLed a =>
      apply ih
      rcases (setStatusLed_effect h a).2.2 with h1 | h1
      · exact h1
      · rw [h1, hout]

theorem halRun_pin_mode (calls : List HalCall) :
    (halRun HalState.init calls).pinModes CONTROL_PIN =
      (if calls.isEmpty then none else some PinDirection.OUTPUT) := by
  cases calls with
  | nil => simp [halRun, HalState.init]
  | cons c cs =>
    cases c with
    | setControlState a =>
      simp only [halRun, List.isEmpty_cons]
      apply halRun_keeps_output
      simp [setControlState, HalState.init, pinMode, digitalWrite]
      split_ifs <;> rfl
    | setStatusLed a =>
      simp only [halRun, List.isEmpty_cons]
      apply halRun_keeps_output
      simp [setStatusLed, HalState.init, pinMode, digitalWrite]
      split_ifs <;> rfl

theorem halRun_matches_spec (calls : List HalCall) :
    getControlState (halRun HalState.init calls) = specControlState calls ∧
    (halRun HalState.init calls).pinLevels CONTROL_PIN = specControlPin calls := by
  cases calls with
  | nil => simp [halRun, getControlState, specControlState, specControlPin, HalState.init]
  | cons c cs =>
    have h := halRun_last cs c HalState.init
    have hl : (c :: cs).getLast? = some ((c :: cs).getLast (List.cons_ne_nil _ _)) :=
      List.getLast?_eq_getLast _ _
    simp only [getControlState, specControlState, specControlPin, hl]
    exact h

theorem spec_depends_on_arguments (calls calls2 : List HalCall)
    (hargs : calls2.map HalCall.arg = calls.map HalCall.arg) :
    specControlState calls2 = specControlState calls ∧
    specControlPin calls2 = specControlPin calls := by
  have h : calls2.getLast?.map HalCall.arg = calls.getLast?.map HalCall.arg := by
    rw [← List.getLast?_map, ← List.getLast?_map, hargs]
  unfold specControlState specControlPin
  cases h1 : calls.getLast? <;> cases h2 : calls2.getLast? <;> simp [h1, h2] at h ⊢
  · rw [h]
    simp

/-- C10: after any sequence of calls to `setControlState` and `setStatusLed`,
`getControlState` returns the argument of the most recent call to either setter
(`OFF` when there was none) and the level last written to the control pin is
`HIGH` exactly when that argument is `ON` (nothing is written when there was no
call). A sequence in which any of the calls is made through the other setter,
with the same arguments, leaves the same control state, the same level on the
control pin and the same mode of the control pin (`OUTPUT` once a setter was
called). -/
theorem control_state_follows_last_setter_call (calls : List HalCall) :
    getControlState (halRun HalState.init calls) = specControlState calls ∧
    (halRun HalState.init calls).pinLevels CONTROL_PIN = specControlPin calls ∧
    (halRun HalState.init calls).pinModes CONTROL_PIN =
      (if calls.isEmpty then none else some PinDirection.OUTPUT) ∧
    (∀ calls2 : List HalCall, calls2.map HalCall.arg = calls.map HalCall.arg →
      getControlState (halRun HalState.init calls2) =
        getControlState (halRun HalState.init calls) ∧
      (halRun HalState.init calls2).pinLevels CONTROL_PIN =
        (halRun HalState.init calls).pinLevels CONTROL_PIN ∧
      (halRun HalState.init calls2).pinModes CONTROL_PIN =
        (halRun HalState.init calls).pinModes CONTROL_PIN) := by
  obtain ⟨h1, h2⟩ := halRun_matches_spec calls
  refine ⟨h1, h2, halRun_pin_mode calls, ?_⟩
  intro calls2 hargs
  obtain ⟨k1, k2⟩ := halRun_matches_spec calls2
  obtain ⟨e1, e2⟩ := spec_depends_on_arguments calls calls2 hargs
  rw [h1, h2, k1, k2, e1, e2, halRun_pin_mode, halRun_pin_mode]
  refine ⟨rfl, rfl, ?_⟩
  have hlen : calls2.length = calls.length := by
    have := congrArg List.length hargs
    simpa using this
  cases calls <;> cases calls2 <;> simp at hlen ⊢

/-- Witness of C10: the indicator driven `ON` after the actuator was driven
`OFF` leaves the control state `ON` and the control pin `HIGH`, as two actuator
calls with the same arguments do. -/
theorem control_state_follows_last_setter_call_witness :
    getControlState
        (halRun HalState.init [HalCall.setControlState OFF, HalCall.setStatusLed ON]) =
      getControlState
        (halRun HalState.init [HalCall.setControlState OFF, HalCall.setControlState ON]) ∧
    (halRun HalState.init [HalCall.setControlState OFF, HalCall.setStatusLed ON]).pinLevels
        CONTROL_PIN =
      (halRun HalState.init
        [HalCall.setControlState OFF, HalCall.setControlState ON]).pinLevels CONTROL_PIN ∧
    (halRun HalState.init [HalCall.setControlState OFF, HalCall.setStatusLed ON]).pinModes
        CONTROL_PIN =
      (halRun HalState.init
        [HalCall.setControlState OFF, HalCall.setControlState ON]).pinModes CONTROL_PIN :=
  (control_state_follows_last_setter_call
    [HalCall.setControlState OFF, HalCall.setControlState ON]).2.2.2
    [HalCall.setControlState OFF, HalCall.setStatusLed ON] rfl

end Control
